import Mathlib

/-!
Shallow embedding of `spyder/preferences/runconfig.py`: the
`RunConfiguration` record, the persisted run-history helpers
(`_get_run_configurations`, `_set_run_configurations`,
`get_run_configuration`) and the store-facing logic of the run dialogs
(`RunConfigOptions.get`/`is_valid`, `RunConfigOneDialog.accept`,
`RunConfigDialog.accept`).  The configuration store (section `run` of
`CONF`) is modelled as an explicit state value threaded through the
functions; the filesystem checks `osp.isfile` and `osp.isdir` are
abstract boolean oracles.
-/

namespace Spyder.RunConfig

/-- A Python scalar value as it occurs in an options mapping: `None`, a
bool, or a string. -/
inductive Value where
  | vnone : Value
  | vb : Bool → Value
  | vs : String → Value
deriving DecidableEq

/-- An options mapping (a Python dict with string keys), as an
association list; lookups return the first binding, as dict lookup
does (a dict has at most one binding per key). -/
abbrev Options := List (String × Value)

/-- Python `dict.get(key, default)` on an options mapping. -/
def Options.get (o : Options) (key : String) (dflt : Value) : Value :=
  match o with
  | [] => dflt
  | (k, v) :: rest => if k = key then v else Options.get rest key dflt

/-- Python truthiness of a `Value` (used by `if self.args_enabled:`). -/
def Value.truthy : Value → Bool
  | .vnone => false
  | .vb b => b
  | .vs s => s != ""

/-- The Python exceptions this module can raise or catch. -/
inductive PyErr where
  | valueError : PyErr
  | typeError : PyErr
  | attributeError : PyErr
deriving DecidableEq

/-- A Python value as persisted under the run section's
`configurations` key. -/
inductive PyVal where
  | vnone : PyVal
  | vb : Bool → PyVal
  | vi : Int → PyVal
  | str : String → PyVal
  | list : List PyVal → PyVal
  | tuple : List PyVal → PyVal
  | dict : Options → PyVal

/-- Section `run` of the configuration store `CONF`, split by the types
of values this module keeps there: the scalar default options, the
`defaultconfiguration` mapping, the `history` cap and the raw
`configurations` value. -/
structure ConfRun where
  scalars : List (String × Value)
  defaultconfiguration : Option Options
  history : Option Nat
  configurations : Option PyVal

/-- `CONF.get('run', key, default)` for the scalar option keys. -/
def ConfRun.get (c : ConfRun) (key : String) (dflt : Value) : Value :=
  Options.get c.scalars key dflt

def CURRENT_INTERPRETER_OPTION : String := "default/interpreter/current"

def SYSTERM_INTERPRETER_OPTION : String := "default/interpreter/systerm"

def WDIR_USE_SCRIPT_DIR_OPTION : String := "default/wdir/use_script_directory"

def WDIR_USE_CWD_DIR_OPTION : String := "default/wdir/use_cwd_directory"

def WDIR_USE_FIXED_DIR_OPTION : String := "default/wdir/use_fixed_directory"

/-- The fields of a `RunConfiguration` instance.  Every field holds a
Python value (`None` right after `__init__`). -/
structure RunConfiguration where
  args : Value
  args_enabled : Value
  wdir : Value
  wdir_enabled : Value
  current : Value
  systerm : Value
  interact : Value
  post_mortem : Value
  python_args : Value
  python_args_enabled : Value
  clear_namespace : Value
  console_namespace : Value
  file_dir : Value
  cw_dir : Value
  fixed_dir : Value
  dir : Value
deriving DecidableEq

/-- The field state right after the assignments at the top of
`RunConfiguration.__init__`: every field is `None`. -/
def RunConfiguration.init : RunConfiguration :=
  { args := .vnone, args_enabled := .vnone, wdir := .vnone, wdir_enabled := .vnone,
    current := .vnone, systerm := .vnone, interact := .vnone, post_mortem := .vnone,
    python_args := .vnone, python_args_enabled := .vnone, clear_namespace := .vnone,
    console_namespace := .vnone, file_dir := .vnone, cw_dir := .vnone,
    fixed_dir := .vnone, dir := .vnone }

/-- `RunConfiguration.set(options)`: each handled field is read from
`options` when present, otherwise from the store default (or from the
literal the source passes instead of a store read).  `wdir` and
`wdir_enabled` are not assigned. -/
def RunConfiguration.set (rc : RunConfiguration) (c : ConfRun) (options : Options) :
    RunConfiguration :=
  { rc with
    args := Options.get options "args" (.vs ""),
    args_enabled := Options.get options "args/enabled" (.vb false),
    current := Options.get options "current" (c.get CURRENT_INTERPRETER_OPTION (.vb true)),
    systerm := Options.get options "systerm" (c.get SYSTERM_INTERPRETER_OPTION (.vb false)),
    interact := Options.get options "interact" (c.get "interact" (.vb false)),
    post_mortem := Options.get options "post_mortem" (c.get "post_mortem" (.vb false)),
    python_args := Options.get options "python_args" (.vs ""),
    python_args_enabled := Options.get options "python_args/enabled" (.vb false),
    clear_namespace :=
      Options.get options "clear_namespace" (c.get "clear_namespace" (.vb false)),
    console_namespace :=
      Options.get options "console_namespace" (c.get "console_namespace" (.vb false)),
    file_dir := Options.get options "file_dir" (c.get WDIR_USE_SCRIPT_DIR_OPTION (.vb true)),
    cw_dir := Options.get options "cw_dir" (c.get WDIR_USE_CWD_DIR_OPTION (.vb false)),
    fixed_dir := Options.get options "fixed_dir" (c.get WDIR_USE_FIXED_DIR_OPTION (.vb false)),
    dir := Options.get options "dir" (.vs "") }

/-- `RunConfiguration()`: initialise all fields to `None`, then run
`set(CONF.get('run', 'defaultconfiguration', {}))`. -/
def RunConfiguration.new (c : ConfRun) : RunConfiguration :=
  RunConfiguration.init.set c (c.defaultconfiguration.getD [])

/-- `RunConfiguration.get()`: serialise the full field set, in source
order; `workdir/enabled` and `workdir` are written from the fields that
`set` never assigns. -/
def RunConfiguration.get (rc : RunConfiguration) : Options :=
  [("args/enabled", rc.args_enabled),
   ("args", rc.args),
   ("workdir/enabled", rc.wdir_enabled),
   ("workdir", rc.wdir),
   ("current", rc.current),
   ("systerm", rc.systerm),
   ("interact", rc.interact),
   ("post_mortem", rc.post_mortem),
   ("python_args/enabled", rc.python_args_enabled),
   ("python_args", rc.python_args),
   ("clear_namespace", rc.clear_namespace),
   ("console_namespace", rc.console_namespace),
   ("file_dir", rc.file_dir),
   ("cw_dir", rc.cw_dir),
   ("fixed_dir", rc.fixed_dir),
   ("dir", rc.dir)]

/-- `RunConfiguration.get_working_directory()`. -/
def RunConfiguration.get_working_directory (rc : RunConfiguration) : Value :=
  rc.dir

/-- `RunConfiguration.get_arguments()`: the stored `args` when
`args_enabled` is truthy, else the empty string. -/
def RunConfiguration.get_arguments (rc : RunConfiguration) : Value :=
  if rc.args_enabled.truthy then rc.args else .vs ""

/-- `RunConfiguration.get_python_arguments()`. -/
def RunConfiguration.get_python_arguments (rc : RunConfiguration) : Value :=
  if rc.python_args_enabled.truthy then rc.python_args else .vs ""

/-- Python iteration: the elements a value yields, or `none` when the
value is not iterable.  Strings yield their one-character substrings
and dicts yield their keys; `None`, bools and ints are not iterable. -/
def PyVal.iter : PyVal → Option (List PyVal)
  | .list xs => some xs
  | .tuple xs => some xs
  | .str s => some (s.data.map fun ch => PyVal.str ch.toString)
  | .dict d => some (d.map fun p => PyVal.str p.1)
  | _ => none

/-- Python pair unpacking `filename, options = e`: `TypeError` when `e`
is not iterable, `ValueError` when it yields a number of items other
than two. -/
def unpack2 (e : PyVal) : Except PyErr (PyVal × PyVal) :=
  match e.iter with
  | none => .error .typeError
  | some [a, b] => .ok (a, b)
  | some _ => .error .valueError

/-- Unpack every element of a list as a pair, stopping at the first
failing element, as the loop of `for filename, options in xs` does. -/
def unpackPairs : List PyVal → Except PyErr (List (PyVal × PyVal))
  | [] => .ok []
  | e :: rest =>
    match unpack2 e with
    | .error err => .error err
    | .ok p =>
      match unpackPairs rest with
      | .error err => .error err
      | .ok ps => .ok (p :: ps)

/-- `for filename, options in v` over an arbitrary stored value. -/
def iterPairs (v : PyVal) : Except PyErr (List (PyVal × PyVal)) :=
  match v.iter with
  | none => .error .typeError
  | some es => unpackPairs es

/-- `osp.isfile` applied to a stored filename value, over an abstract
filesystem `fs`; non-string values never name a regular file here. -/
def pyIsFile (fs : String → Bool) : PyVal → Bool
  | .str s => fs s
  | _ => false

/-- Python `fname == filename` for a string `fname`: true exactly when
`filename` is an equal string. -/
def PyVal.eqStr (v : PyVal) (s : String) : Bool :=
  match v with
  | .str t => t == s
  | _ => false

/-- `_get_run_configurations()`: read the `history` cap, then build the
list of `(filename, options)` pairs from the stored `configurations`
value, keeping entries whose file exists and truncating to the cap.  A
`ValueError` raised by the pair unpacking is caught: the stored history
is reset to `[]` and the empty list is returned.  Any other exception
propagates, leaving the store unchanged. -/
def _get_run_configurations (fs : String → Bool) (c : ConfRun) :
    Except PyErr (List (PyVal × PyVal)) × ConfRun :=
  let history_count := c.history.getD 20
  match iterPairs (c.configurations.getD (.list [])) with
  | .ok pairs =>
    (.ok ((pairs.filter fun p => pyIsFile fs p.1).take history_count), c)
  | .error .valueError => (.ok [], { c with configurations := some (.list []) })
  | .error e => (.error e, c)

/-- `_set_run_configurations(configurations)`: truncate to the
`history` cap and store the entries (as Python tuples). -/
def _set_run_configurations (c : ConfRun) (configurations : List (PyVal × PyVal)) : ConfRun :=
  let history_count := c.history.getD 20
  let stored := (configurations.take history_count).map fun p => PyVal.tuple [p.1, p.2]
  { c with configurations := some (.list stored) }

/-- `get_run_configuration(fname)`: scan the filtered, capped history
view for an entry whose filename equals `fname`; on a match build a
fresh `RunConfiguration` and `set` it from the stored options (a
non-dict options value would raise `AttributeError` inside `set`);
otherwise return `None`. -/
def get_run_configuration (fs : String → Bool) (c : ConfRun) (fname : String) :
    Except PyErr (Option RunConfiguration) × ConfRun :=
  match _get_run_configurations fs c with
  | (.error e, c2) => (.error e, c2)
  | (.ok configurations, c2) =>
    match configurations.find? fun p => p.1.eqStr fname with
    | none => (.ok none, c2)
    | some p =>
      match p.2 with
      | .dict options => (.ok (some ((RunConfiguration.new c2).set c2 options)), c2)
      | _ => (.error .attributeError, c2)

/-- The widget state of a `RunConfigOptions` page that its `get` and
`is_valid` methods read: checked states and line-edit texts. -/
structure RunConfigOptionsState where
  clo_cb : Bool
  clo_edit : String
  current_radio : Bool
  systerm_radio : Bool
  interact_cb : Bool
  post_mortem_cb : Bool
  pclo_cb : Bool
  pclo_edit : String
  clear_var_cb : Bool
  console_ns_cb : Bool
  file_dir_radio : Bool
  cwd_radio : Bool
  fixed_dir_radio : Bool
  wd_edit : String
deriving DecidableEq

/-- First half of `RunConfigOptions.get`: copy every widget value into
the wrapped runconf; `wdir` and `wdir_enabled` are untouched. -/
def RunConfigOptions.updateRunconf (w : RunConfigOptionsState) (rc : RunConfiguration) :
    RunConfiguration :=
  { rc with
    args_enabled := .vb w.clo_cb,
    args := .vs w.clo_edit,
    current := .vb w.current_radio,
    systerm := .vb w.systerm_radio,
    interact := .vb w.interact_cb,
    post_mortem := .vb w.post_mortem_cb,
    python_args_enabled := .vb w.pclo_cb,
    python_args := .vs w.pclo_edit,
    clear_namespace := .vb w.clear_var_cb,
    console_namespace := .vb w.console_ns_cb,
    file_dir := .vb w.file_dir_radio,
    cw_dir := .vb w.cwd_radio,
    fixed_dir := .vb w.fixed_dir_radio,
    dir := .vs w.wd_edit }

/-- `RunConfigOptions.get()`: update the wrapped runconf from the
widgets and return it together with its serialised mapping. -/
def RunConfigOptions.get (w : RunConfigOptionsState) (rc : RunConfiguration) :
    RunConfiguration × Options :=
  let rc2 := RunConfigOptions.updateRunconf w rc
  (rc2, rc2.get)

/-- `RunConfigOptions.is_valid()`: valid unless the fixed-directory
radio is checked and the entered directory does not exist (in which
case the source also shows a modal error naming the path). -/
def RunConfigOptions.is_valid (isdir : String → Bool) (w : RunConfigOptionsState) : Bool :=
  !w.fixed_dir_radio || isdir w.wd_edit

/-- `RunConfigOneDialog.accept()`: return unchanged when the page is
invalid; otherwise read the history, prepend this file's entry at
position 0 and persist.  The boolean records whether `QDialog.accept`
was reached. -/
def RunConfigOneDialog.accept (fs isdir : String → Bool) (filename : String)
    (w : RunConfigOptionsState) (rc : RunConfiguration) (c : ConfRun) :
    Except PyErr Bool × ConfRun :=
  if RunConfigOptions.is_valid isdir w then
    match _get_run_configurations fs c with
    | (.error e, c2) => (.error e, c2)
    | (.ok configurations, c2) =>
      (.ok true, _set_run_configurations c2
        ((PyVal.str filename, PyVal.dict (RunConfigOptions.get w rc).2) :: configurations))
  else (.ok false, c)

/-- One stack page of the multi-file dialog, serialised to the
`(filename, options)` tuple its `accept` stores. -/
def RunConfigDialog.entryOptions (e : String × RunConfigOptionsState × RunConfiguration) :
    PyVal × PyVal :=
  (.str e.1, .dict (RunConfigOptions.get e.2.1 e.2.2).2)

/-- `RunConfigDialog.accept()`: validity is checked only for the page
at the current combo index; on success the whole stored history is
replaced by the entries built from every stack page. -/
def RunConfigDialog.accept (isdir : String → Bool)
    (stack : List (String × RunConfigOptionsState × RunConfiguration))
    (cur : Nat) (c : ConfRun) : Bool × ConfRun :=
  match stack[cur]? with
  | some e =>
    if RunConfigOptions.is_valid isdir e.2.1 then
      (true, _set_run_configurations c (stack.map RunConfigDialog.entryOptions))
    else (false, c)
  | none => (true, _set_run_configurations c (stack.map RunConfigDialog.entryOptions))

/-- A well-formed history entry, as the pair the read path yields. -/
def pairEntry (e : String × Options) : PyVal × PyVal :=
  (.str e.1, .dict e.2)

/-- Well-formed history entries, as the pairs the read path yields. -/
def pairify (entries : List (String × Options)) : List (PyVal × PyVal) :=
  entries.map pairEntry

/-- A well-formed history entry, as stored on disk. -/
def tupleEntry (e : String × Options) : PyVal :=
  .tuple [.str e.1, .dict e.2]

/-- A run store whose `configurations` key holds a well-formed list of
`(filename, options)` tuples. -/
def storeOf (s : List (String × Value)) (dc : Option Options) (h : Option Nat)
    (entries : List (String × Options)) : ConfRun :=
  { scalars := s, defaultconfiguration := dc, history := h,
    configurations := some (.list (entries.map tupleEntry)) }

/-- Length of the stored `configurations` value, when it is a list. -/
def storedLen (c : ConfRun) : Option Nat :=
  match c.configurations with
  | some (.list l) => some l.length
  | _ => none

/-- The first component of a stored history tuple. -/
def firstOfTuple (v : PyVal) : Option PyVal :=
  match v with
  | .tuple (f :: _) => some f
  | _ => none

/-- The filenames of the stored `configurations` list, in order. -/
def storedNames (c : ConfRun) : Option (List (Option PyVal)) :=
  match c.configurations with
  | some (.list l) => some (l.map firstOfTuple)
  | _ => none

lemma unpackPairs_tupleEntry (entries : List (String × Options)) :
    unpackPairs (entries.map tupleEntry) = .ok (pairify entries) := by
  induction entries with
  | nil => rfl
  | cons e rest ih =>
    simp [unpackPairs, unpack2, tupleEntry, PyVal.iter, ih, pairify, pairEntry]

lemma filter_pairify (fs : String → Bool) (entries : List (String × Options)) :
    (pairify entries).filter (fun p => pyIsFile fs p.1)
      = pairify (entries.filter fun e => fs e.1) := by
  induction entries with
  | nil => rfl
  | cons e rest ih =>
    cases h : fs e.1 <;>
      simp [pairify, pairEntry, List.filter_cons, pyIsFile, h] <;>
      first
      | rfl
      | exact ih

lemma take_pairify (n : Nat) (entries : List (String × Options)) :
    (pairify entries).take n = pairify (entries.take n) := by
  simp [pairify, List.map_take]

lemma find_pairify (fname : String) (entries : List (String × Options)) :
    (pairify entries).find? (fun p => p.1.eqStr fname)
      = (entries.find? fun e => e.1 == fname).map pairEntry := by
  induction entries with
  | nil => rfl
  | cons e rest ih =>
    cases h : (e.1 == fname) <;> simp [pairify, pairEntry, List.find?_cons, PyVal.eqStr, h]
    rfl

/-- Reading a well-formed store succeeds, filters by file existence,
truncates to the cap, and leaves the store unchanged. -/
lemma getRC_storeOf (fs : String → Bool) (s : List (String × Value)) (dc : Option Options)
    (h : Option Nat) (entries : List (String × Options)) :
    _get_run_configurations fs (storeOf s dc h entries)
      = (.ok (pairify ((entries.filter fun e => fs e.1).take (h.getD 20))),
         storeOf s dc h entries) := by
  simp [_get_run_configurations, storeOf, iterPairs, PyVal.iter,
        unpackPairs_tupleEntry, filter_pairify, take_pairify]

/-- The three possible outcomes of a read: success with the store
unchanged, a caught `ValueError` resetting the store, or a propagated
exception with the store unchanged. -/
lemma getRC_cases (fs : String → Bool) (c : ConfRun) :
    (∃ l, _get_run_configurations fs c = (.ok l, c)) ∨
    _get_run_configurations fs c
      = (.ok [], { c with configurations := some (.list []) }) ∨
    ∃ e, _get_run_configurations fs c = (.error e, c) := by
  cases h : iterPairs (c.configurations.getD (.list [])) with
  | ok pairs =>
    refine Or.inl ⟨(pairs.filter fun p => pyIsFile fs p.1).take (c.history.getD 20), ?_⟩
    simp [_get_run_configurations, h]
  | error e =>
    cases e with
    | valueError => exact Or.inr (Or.inl (by simp [_get_run_configurations, h]))
    | typeError =>
      refine Or.inr (Or.inr ⟨.typeError, ?_⟩)
      simp [_get_run_configurations, h]
    | attributeError =>
      refine Or.inr (Or.inr ⟨.attributeError, ?_⟩)
      simp [_get_run_configurations, h]

/-- Persisting any list stores a list of length at most the cap. -/
lemma storedLen_set (c : ConfRun) (cfgs : List (PyVal × PyVal)) :
    ∃ n, storedLen (_set_run_configurations c cfgs) = some n ∧ n ≤ c.history.getD 20 := by
  refine ⟨(cfgs.take (c.history.getD 20)).length, ?_, ?_⟩
  · simp [storedLen, _set_run_configurations]
  · exact List.length_take_le _ _

/-- A run store whose section is empty: every read falls back to its
default. -/
def emptyConf : ConfRun :=
  { scalars := [], defaultconfiguration := none, history := none, configurations := none }

/-- A run store holding only `default/interpreter/current = True`. -/
def currentTrueConf : ConfRun :=
  { scalars := [(CURRENT_INTERPRETER_OPTION, Value.vb true)],
    defaultconfiguration := none, history := none, configurations := none }

/-- Claim C1: for every store `c` and options mapping `o`, building
`m = RunConfiguration().set(o).get()` and applying `set(m)` to a fresh
`RunConfiguration` reproduces the values of the fourteen fields
`args_enabled`, `args`, `current`, `systerm`, `interact`,
`post_mortem`, `python_args_enabled`, `python_args`,
`clear_namespace`, `console_namespace`, `file_dir`, `cw_dir`,
`fixed_dir` and `dir`; the vestigial `wdir_enabled` field is not
round-tripped: `set` ignores the `workdir/enabled` key, so the field
keeps its initial `None` whatever value that key carries. -/
theorem c1_set_get_roundtrip (c : ConfRun) (o : Options) :
    let rc1 := (RunConfiguration.new c).set c o
    let rc2 := (RunConfiguration.new c).set c rc1.get
    rc2.args_enabled = rc1.args_enabled ∧
    rc2.args = rc1.args ∧
    rc2.current = rc1.current ∧
    rc2.systerm = rc1.systerm ∧
    rc2.interact = rc1.interact ∧
    rc2.post_mortem = rc1.post_mortem ∧
    rc2.python_args_enabled = rc1.python_args_enabled ∧
    rc2.python_args = rc1.python_args ∧
    rc2.clear_namespace = rc1.clear_namespace ∧
    rc2.console_namespace = rc1.console_namespace ∧
    rc2.file_dir = rc1.file_dir ∧
    rc2.cw_dir = rc1.cw_dir ∧
    rc2.fixed_dir = rc1.fixed_dir ∧
    rc2.dir = rc1.dir ∧
    ∀ v : Value,
      ((RunConfiguration.new c).set c (("workdir/enabled", v) :: rc1.get)).wdir_enabled
        = Value.vnone :=
  ⟨rfl, rfl, rfl, rfl, rfl, rfl, rfl, rfl, rfl, rfl, rfl, rfl, rfl, rfl, fun _ => rfl⟩

/-- Claim C2, counterexample: `set` never assigns `wdir_enabled` — on a
fresh instance it stays `None` after `set({})`, and it stays `None`
even when the options mapping carries a `wdir_enabled` key; `None` is
not the `False` literal the claim says the field falls back to. -/
theorem c2_counterexample :
    ((RunConfiguration.init.set emptyConf [("wdir_enabled", Value.vb true)]).wdir_enabled
      = Value.vnone) ∧
    ((RunConfiguration.new emptyConf).set emptyConf []).wdir_enabled = Value.vnone ∧
    Value.vnone ≠ Value.vb false :=
  ⟨rfl, rfl, by decide⟩

/-- Claim C2 (amended): `set(options)` assigns each of the fourteen
fields it handles from `options` when the key is present, otherwise
`current`, `systerm`, `interact`, `post_mortem`, `clear_namespace`,
`console_namespace`, `file_dir`, `cw_dir` and `fixed_dir` fall back to
the corresponding store default, while `args`, `python_args` and `dir`
fall back to the empty-string literal and `args/enabled` and
`python_args/enabled` to the `False` literal; `wdir` and `wdir_enabled`
are never assigned and keep their previous values.  In particular, with
the store holding `default/interpreter/current = True`,
`RunConfiguration().set({})` yields `current = True` and
`systerm = False`. -/
theorem c2_set_field_sources (c : ConfRun) (o : Options) (rc : RunConfiguration) :
    (rc.set c o).args = Options.get o "args" (.vs "") ∧
    (rc.set c o).args_enabled = Options.get o "args/enabled" (.vb false) ∧
    (rc.set c o).current
      = Options.get o "current" (c.get CURRENT_INTERPRETER_OPTION (.vb true)) ∧
    (rc.set c o).systerm
      = Options.get o "systerm" (c.get SYSTERM_INTERPRETER_OPTION (.vb false)) ∧
    (rc.set c o).interact = Options.get o "interact" (c.get "interact" (.vb false)) ∧
    (rc.set c o).post_mortem
      = Options.get o "post_mortem" (c.get "post_mortem" (.vb false)) ∧
    (rc.set c o).python_args = Options.get o "python_args" (.vs "") ∧
    (rc.set c o).python_args_enabled = Options.get o "python_args/enabled" (.vb false) ∧
    (rc.set c o).clear_namespace
      = Options.get o "clear_namespace" (c.get "clear_namespace" (.vb false)) ∧
    (rc.set c o).console_namespace
      = Options.get o "console_namespace" (c.get "console_namespace" (.vb false)) ∧
    (rc.set c o).file_dir
      = Options.get o "file_dir" (c.get WDIR_USE_SCRIPT_DIR_OPTION (.vb true)) ∧
    (rc.set c o).cw_dir
      = Options.get o "cw_dir" (c.get WDIR_USE_CWD_DIR_OPTION (.vb false)) ∧
    (rc.set c o).fixed_dir
      = Options.get o "fixed_dir" (c.get WDIR_USE_FIXED_DIR_OPTION (.vb false)) ∧
    (rc.set c o).dir = Options.get o "dir" (.vs "") ∧
    (rc.set c o).wdir = rc.wdir ∧
    (rc.set c o).wdir_enabled = rc.wdir_enabled ∧
    ((RunConfiguration.new currentTrueConf).set currentTrueConf []).current = Value.vb true ∧
    ((RunConfiguration.new currentTrueConf).set currentTrueConf []).systerm = Value.vb false :=
  ⟨rfl, rfl, rfl, rfl, rfl, rfl, rfl, rfl, rfl, rfl, rfl, rfl, rfl, rfl, rfl, rfl, rfl, rfl⟩

/-- Claim C3: `get_arguments()` returns the empty string when
`args_enabled` is `False`, whatever `args` holds, and returns the
stored `args` when `args_enabled` is `True`; `get_python_arguments()`
behaves the same with `python_args_enabled` and `python_args`.
Disabling a flag leaves the stored string untouched (the getters are
pure, and overwriting the flag does not touch the string field). -/
theorem c3_arguments_gated_by_flag (rc : RunConfiguration) :
    (rc.args_enabled = Value.vb false → rc.get_arguments = Value.vs "") ∧
    (rc.args_enabled = Value.vb true → rc.get_arguments = rc.args) ∧
    (rc.python_args_enabled = Value.vb false → rc.get_python_arguments = Value.vs "") ∧
    (rc.python_args_enabled = Value.vb true → rc.get_python_arguments = rc.python_args) ∧
    ({ rc with args_enabled := Value.vb false }).args = rc.args ∧
    ({ rc with python_args_enabled := Value.vb false }).python_args = rc.python_args := by
  refine ⟨?_, ?_, ?_, ?_, rfl, rfl⟩ <;> intro h <;>
    simp [RunConfiguration.get_arguments, RunConfiguration.get_python_arguments,
          Value.truthy, h]

/-- A concrete record with command-line arguments disabled but python
arguments enabled. -/
def c3rc : RunConfiguration :=
  { RunConfiguration.init with
    args := Value.vs "x", args_enabled := Value.vb false,
    python_args := Value.vs "y", python_args_enabled := Value.vb true }

/-- Witness for claim C3 at a concrete record: the disabled flag hides
the stored "x" and the enabled flag exposes the stored "y". -/
theorem c3_arguments_gated_by_flag_witness :
    c3rc.get_arguments = Value.vs "" ∧ c3rc.get_python_arguments = Value.vs "y" :=
  ⟨(c3_arguments_gated_by_flag c3rc).1 rfl,
   (c3_arguments_gated_by_flag c3rc).2.2.2.1 rfl⟩

/-- Claim C4: persisting a history (`_set_run_configurations`) always
stores a list of length at most the `history` cap (default 20), and
after either dialog's `accept` the store is unchanged (rejection or a
propagated exception) or holds a list of length at most the cap. -/
theorem c4_history_capped :
    (∀ (c : ConfRun) (cfgs : List (PyVal × PyVal)),
      ∃ n, storedLen (_set_run_configurations c cfgs) = some n ∧ n ≤ c.history.getD 20) ∧
    (∀ (fs isdir : String → Bool) (filename : String) (w : RunConfigOptionsState)
        (rc : RunConfiguration) (c : ConfRun),
      (RunConfigOneDialog.accept fs isdir filename w rc c).2 = c ∨
      ∃ n, storedLen (RunConfigOneDialog.accept fs isdir filename w rc c).2 = some n ∧
        n ≤ c.history.getD 20) ∧
    (∀ (isdir : String → Bool)
        (stack : List (String × RunConfigOptionsState × RunConfiguration))
        (cur : Nat) (c : ConfRun),
      (RunConfigDialog.accept isdir stack cur c).2 = c ∨
      ∃ n, storedLen (RunConfigDialog.accept isdir stack cur c).2 = some n ∧
        n ≤ c.history.getD 20) := by
  refine ⟨storedLen_set, ?_, ?_⟩
  · intro fs isdir filename w rc c
    by_cases hv : RunConfigOptions.is_valid isdir w = true
    · rcases getRC_cases fs c with ⟨l, hl⟩ | hreset | ⟨e, he⟩
      · right
        have hacc : RunConfigOneDialog.accept fs isdir filename w rc c
            = (.ok true, _set_run_configurations c
                ((PyVal.str filename, PyVal.dict (RunConfigOptions.get w rc).2) :: l)) := by
          simp [RunConfigOneDialog.accept, hv, hl]
        rw [hacc]
        exact storedLen_set c _
      · right
        have hacc : RunConfigOneDialog.accept fs isdir filename w rc c
            = (.ok true, _set_run_configurations
                { c with configurations := some (.list []) }
                [(PyVal.str filename, PyVal.dict (RunConfigOptions.get w rc).2)]) := by
          simp [RunConfigOneDialog.accept, hv, hreset]
        rw [hacc]
        exact storedLen_set { c with configurations := some (.list []) } _
      · left
        simp [RunConfigOneDialog.accept, hv, he]
    · left
      simp [RunConfigOneDialog.accept, hv]
  · intro isdir stack cur c
    cases hs : stack[cur]? with
    | none =>
      right
      have hacc : RunConfigDialog.accept isdir stack cur c
          = (true, _set_run_configurations c (stack.map RunConfigDialog.entryOptions)) := by
        simp [RunConfigDialog.accept, hs]
      rw [hacc]
      exact storedLen_set c _
    | some e =>
      by_cases hv : RunConfigOptions.is_valid isdir e.2.1 = true
      · right
        have hacc : RunConfigDialog.accept isdir stack cur c
            = (true, _set_run_configurations c (stack.map RunConfigDialog.entryOptions)) := by
          simp [RunConfigDialog.accept, hs, hv]
        rw [hacc]
        exact storedLen_set c _
      · left
        simp [RunConfigDialog.accept, hs, hv]

/-- Claim C5: `_get_run_configurations` on a well-formed store first
filters the stored entries to those whose file exists, then truncates
the filtered list to the cap, leaving the store unchanged; with a cap
of 3 and five stored entries A..E whose files all exist, it returns
exactly A, B, C in order. -/
theorem c5_read_filters_then_truncates :
    (∀ (fs : String → Bool) (s : List (String × Value)) (dc : Option Options)
        (h : Option Nat) (entries : List (String × Options)),
      _get_run_configurations fs (storeOf s dc h entries)
        = (.ok (pairify ((entries.filter fun e => fs e.1).take (h.getD 20))),
           storeOf s dc h entries)) ∧
    _get_run_configurations (fun _ => true)
        (storeOf [] none (some 3) [("A", []), ("B", []), ("C", []), ("D", []), ("E", [])])
      = (.ok [(.str "A", .dict []), (.str "B", .dict []), (.str "C", .dict [])],
         storeOf [] none (some 3) [("A", []), ("B", []), ("C", []), ("D", []), ("E", [])]) :=
  ⟨getRC_storeOf, by rw [getRC_storeOf]; rfl⟩

/-- A store whose `configurations` value is an int: not iterable as
pairs at all. -/
def corruptConf : ConfRun :=
  { scalars := [], defaultconfiguration := none, history := none,
    configurations := some (.vi 7) }

/-- Claim C6, counterexample: the stored value `7` is structurally
invalid (not iterable as pairs), yet the read does not catch the
failure — iterating it raises `TypeError`, which `except ValueError`
does not catch, so the error propagates and the stored value is left
as it was instead of being reset to the empty list. -/
theorem c6_counterexample :
    _get_run_configurations (fun _ => false) corruptConf
      = (.error PyErr.typeError, corruptConf) ∧
    corruptConf.configurations = some (PyVal.vi 7) :=
  ⟨rfl, rfl⟩

/-- Claim C6 (amended): a stored value whose iteration fails with
`ValueError` — its elements are iterables that do not unpack into
exactly two items — is caught: the stored history is reset to the
empty list, persisted, and the empty list is returned.  A stored value
that raises `TypeError` — it is not iterable, or an element is not
iterable — propagates the error to the caller and leaves the stored
value unchanged. -/
theorem c6_corrupt_history_selfheal (fs : String → Bool) (c : ConfRun) (v : PyVal)
    (hv : c.configurations = some v) :
    (iterPairs v = .error .valueError →
      _get_run_configurations fs c
        = (.ok [], { c with configurations := some (.list []) })) ∧
    (iterPairs v = .error .typeError →
      _get_run_configurations fs c = (.error .typeError, c)) := by
  constructor <;> intro h <;> simp [_get_run_configurations, hv, h]

/-- A store whose `configurations` holds one 1-tuple: unpacking its
element raises `ValueError`. -/
def corruptPairConf : ConfRun :=
  { scalars := [], defaultconfiguration := none, history := none,
    configurations := some (.list [.tuple [.str "a"]]) }

/-- Witness for the amended claim C6: the 1-tuple entry raises
`ValueError`, the history is reset to `[]` and `[]` is returned, while
the non-iterable store of the counterexample propagates `TypeError`. -/
theorem c6_corrupt_history_selfheal_witness :
    (_get_run_configurations (fun _ => false) corruptPairConf
      = (.ok [], { corruptPairConf with configurations := some (.list []) })) ∧
    _get_run_configurations (fun _ => false) corruptConf
      = (.error .typeError, corruptConf) :=
  ⟨(c6_corrupt_history_selfheal (fun _ => false) corruptPairConf
      (.list [.tuple [.str "a"]]) rfl).1 rfl,
   (c6_corrupt_history_selfheal (fun _ => false) corruptConf (.vi 7) rfl).2 rfl⟩

/-- Claim C7: a read either leaves the store exactly as it was or — on
the caught corrupt-structure `ValueError` only — returns the empty
list and resets the stored value to the empty list; moreover every
pair a successful read returns names a file that currently exists, so
entries with missing files are excluded without being removed from
storage. -/
theorem c7_read_does_not_prune_storage :
    (∀ (fs : String → Bool) (c : ConfRun),
      (_get_run_configurations fs c).2 = c ∨
      ((_get_run_configurations fs c).1 = .ok [] ∧
       (_get_run_configurations fs c).2
         = { c with configurations := some (.list []) })) ∧
    (∀ (fs : String → Bool) (c : ConfRun) (l : List (PyVal × PyVal)),
      (_get_run_configurations fs c).1 = .ok l →
      ∀ p ∈ l, pyIsFile fs p.1 = true) := by
  constructor
  · intro fs c
    rcases getRC_cases fs c with ⟨l, hl⟩ | hreset | ⟨e, he⟩
    · exact Or.inl (by rw [hl])
    · exact Or.inr ⟨by rw [hreset], by rw [hreset]⟩
    · exact Or.inl (by rw [he])
  · intro fs c l hl
    cases h : iterPairs (c.configurations.getD (.list [])) with
    | ok pairs =>
      have hshape : (pairs.filter fun p => pyIsFile fs p.1).take (c.history.getD 20) = l := by
        simpa [_get_run_configurations, h] using hl
      intro p hp
      rw [← hshape] at hp
      have hp2 : p ∈ pairs.filter (fun p => pyIsFile fs p.1) := List.mem_of_mem_take hp
      exact (List.mem_filter.mp hp2).2
    | error e =>
      cases e with
      | valueError =>
        have hshape : l = [] := by
          have := hl
          simp [_get_run_configurations, h] at this
          exact this
        subst hshape
        intro p hp
        cases hp
      | typeError => simp [_get_run_configurations, h] at hl
      | attributeError => simp [_get_run_configurations, h] at hl

/-- A one-entry store whose file exists under the witness
filesystem. -/
def c7Conf : ConfRun := storeOf [] none none [("a", [])]

/-- Witness for claim C7: applying the exclusion property to a
concrete successful read. -/
theorem c7_read_does_not_prune_storage_witness :
    pyIsFile (fun s => s == "a") (PyVal.str "a") = true :=
  c7_read_does_not_prune_storage.2 (fun s => s == "a") c7Conf
    [(PyVal.str "a", PyVal.dict [])]
    (by simp [c7Conf, getRC_storeOf, pairify, pairEntry])
    (PyVal.str "a", PyVal.dict []) (List.mem_cons_self _ _)

/-- A concrete widget state whose fixed-directory radio is unchecked,
so validation always passes. -/
def w8 : RunConfigOptionsState :=
  { clo_cb := false, clo_edit := "", current_radio := true, systerm_radio := false,
    interact_cb := false, post_mortem_cb := false, pclo_cb := false, pclo_edit := "",
    clear_var_cb := false, console_ns_cb := false, file_dir_radio := true,
    cwd_radio := false, fixed_dir_radio := false, wd_edit := "" }

/-- A history already holding "foo.py" at position 2. -/
def c8store : ConfRun :=
  storeOf [] none none [("a.py", []), ("b.py", []), ("foo.py", [("args", Value.vs "old")])]

/-- Claim C8: the single-file save prepends the new `(filename,
options)` entry at position 0 of the read history and performs no
de-duplication — the persisted list is exactly the new entry followed
by the filtered, capped old entries, truncated to the cap.  In the
concrete scenario, "foo.py" already sits at position 2 of a 3-entry
history; after the save it is at position 0 and its old entry remains
as a duplicate at position 3. -/
theorem c8_save_prepends_without_dedup :
    (∀ (fs isdir : String → Bool) (filename : String) (w : RunConfigOptionsState)
        (rc : RunConfiguration) (s : List (String × Value)) (dc : Option Options)
        (h : Option Nat) (entries : List (String × Options)),
      RunConfigOneDialog.accept fs isdir filename { w with fixed_dir_radio := false } rc
          (storeOf s dc h entries)
        = (.ok true,
           _set_run_configurations (storeOf s dc h entries)
             ((PyVal.str filename,
               PyVal.dict (RunConfigOptions.get { w with fixed_dir_radio := false } rc).2)
              :: pairify ((entries.filter fun e => fs e.1).take (h.getD 20))))) ∧
    storedNames
        (RunConfigOneDialog.accept (fun _ => true) (fun _ => true) "foo.py" w8
          RunConfiguration.init c8store).2
      = some [some (.str "foo.py"), some (.str "a.py"), some (.str "b.py"),
              some (.str "foo.py")] := by
  constructor
  · intro fs isdir filename w rc s dc h entries
    simp [RunConfigOneDialog.accept, RunConfigOptions.is_valid, getRC_storeOf]
  · rfl

/-- Claim C9: when the fixed-directory radio is checked and the entered
directory does not exist, `is_valid` returns `False` (after the source
reports the path in a modal), `accept` is rejected and the store is
left unchanged; when `is_valid` returns `True`, `accept` proceeds and
persists the prepended history. -/
theorem c9_invalid_fixed_dir_rejects_save :
    (∀ (isdir : String → Bool) (w : RunConfigOptionsState),
      w.fixed_dir_radio = true → isdir w.wd_edit = false →
      RunConfigOptions.is_valid isdir w = false) ∧
    (∀ (fs isdir : String → Bool) (filename : String) (w : RunConfigOptionsState)
        (rc : RunConfiguration) (c : ConfRun),
      RunConfigOptions.is_valid isdir w = false →
      RunConfigOneDialog.accept fs isdir filename w rc c = (.ok false, c)) ∧
    (∀ (fs isdir : String → Bool) (filename : String) (w : RunConfigOptionsState)
        (rc : RunConfiguration) (s : List (String × Value)) (dc : Option Options)
        (h : Option Nat) (entries : List (String × Options)),
      RunConfigOptions.is_valid isdir w = true →
      RunConfigOneDialog.accept fs isdir filename w rc (storeOf s dc h entries)
        = (.ok true,
           _set_run_configurations (storeOf s dc h entries)
             ((PyVal.str filename, PyVal.dict (RunConfigOptions.get w rc).2)
              :: pairify ((entries.filter fun e => fs e.1).take (h.getD 20))))) := by
  refine ⟨?_, ?_, ?_⟩
  · intro isdir w h1 h2
    simp [RunConfigOptions.is_valid, h1, h2]
  · intro fs isdir filename w rc c hv
    simp [RunConfigOneDialog.accept, hv]
  · intro fs isdir filename w rc s dc h entries hv
    simp [RunConfigOneDialog.accept, hv, getRC_storeOf]

/-- A widget state in fixed-directory mode pointing at "missing". -/
def w9 : RunConfigOptionsState :=
  { w8 with fixed_dir_radio := true, wd_edit := "missing" }

/-- Witness for claim C9: with no directory existing, the fixed-dir
page is invalid and its save is rejected with the store untouched;
with every directory existing the same page is valid and the save goes
through on an empty history. -/
theorem c9_invalid_fixed_dir_rejects_save_witness :
    RunConfigOptions.is_valid (fun _ => false) w9 = false ∧
    RunConfigOneDialog.accept (fun _ => false) (fun _ => false) "f.py" w9
        RunConfiguration.init emptyConf = (.ok false, emptyConf) ∧
    RunConfigOneDialog.accept (fun _ => true) (fun _ => true) "f.py" w9
        RunConfiguration.init (storeOf [] none none [])
      = (.ok true,
         _set_run_configurations (storeOf [] none none [])
           [(PyVal.str "f.py",
             PyVal.dict (RunConfigOptions.get w9 RunConfiguration.init).2)]) :=
  ⟨c9_invalid_fixed_dir_rejects_save.1 (fun _ => false) w9 rfl rfl,
   c9_invalid_fixed_dir_rejects_save.2.1 (fun _ => false) (fun _ => false) "f.py" w9
     RunConfiguration.init emptyConf
     (c9_invalid_fixed_dir_rejects_save.1 (fun _ => false) w9 rfl rfl),
   c9_invalid_fixed_dir_rejects_save.2.2 (fun _ => true) (fun _ => true) "f.py" w9
     RunConfiguration.init [] none none [] rfl⟩

/-- Claim C10: `get_run_configuration(fname)` scans only the filtered,
capped view of a well-formed store: its answer is exactly the first
match of `fname` in that view (built into a fresh `RunConfiguration`),
and the store is unchanged.  Concretely it returns `None` when the
matching stored entry's file does not exist, and when cap 1 pushes the
matching entry out of the view, even though both stores hold a
matching entry. -/
theorem c10_lookup_sees_only_filtered_view :
    (∀ (fs : String → Bool) (s : List (String × Value)) (dc : Option Options)
        (h : Option Nat) (entries : List (String × Options)) (fname : String),
      get_run_configuration fs (storeOf s dc h entries) fname
        = (.ok ((((entries.filter fun e => fs e.1).take (h.getD 20)).find?
                fun e => e.1 == fname).map
              fun e => (RunConfiguration.new (storeOf s dc h entries)).set
                (storeOf s dc h entries) e.2),
           storeOf s dc h entries)) ∧
    get_run_configuration (fun _ => false) (storeOf [] none none [("gone.py", [])]) "gone.py"
      = (.ok none, storeOf [] none none [("gone.py", [])]) ∧
    get_run_configuration (fun _ => true)
        (storeOf [] none (some 1) [("a.py", []), ("x.py", [])]) "x.py"
      = (.ok none, storeOf [] none (some 1) [("a.py", []), ("x.py", [])]) := by
  refine ⟨?_, by rfl, by rfl⟩
  intro fs s dc h entries fname
  simp only [get_run_configuration, getRC_storeOf]
  rw [find_pairify]
  cases hf : ((entries.filter fun e => fs e.1).take (h.getD 20)).find?
      fun e => e.1 == fname with
  | none => rfl
  | some e => rfl

end Spyder.RunConfig
